import Mathlib

/-!
Verification development for the `xml_html_to_markdown` course converter.

The repository converts an e-learning course export (cross-referenced XML/HTML
files) into one Markdown document.  This file gives a shallow embedding of the
transformation core:

* `XVal` models the JavaScript values produced by `fast-xml-parser`
  (strings, numbers, booleans, objects as ordered key/value lists, arrays);
* `xmlhandlers.*` and `xmlTransform` embed the quiz/problem renderer
  (the `xmlhandlers` table and `makeTransformer` of `courseconverter.js`);
* `MNode`, `treeToMarkdown` and `readFileContent` embed the course-tree
  renderer (`markdownHandlers`), with the file system and the two external
  collaborators (XML parser, HTML-to-Markdown converter) modelled as an
  explicit `Env`;
* `buildTree` embeds the course-tree builder of the second source module.

String operations (`trim`, `toLowerCase`, `endsWith`, path handling) are
re-implemented over `String.data` character lists so that every definition
evaluates by kernel reduction.  Numbers are modelled as `Int` (the source
never relies on fractional values in the code paths treated here).
-/

/-- Characters-level helper: drop whitespace from both ends, modelling
JavaScript `String.prototype.trim`. -/
def charsTrim (l : List Char) : List Char :=
  ((l.dropWhile Char.isWhitespace).reverse.dropWhile Char.isWhitespace).reverse

/-- JavaScript `s.trim()`. -/
def jsTrim (s : String) : String := String.mk (charsTrim s.data)

/-- JavaScript `s.toLowerCase()` (ASCII case folding suffices here). -/
def jsToLower (s : String) : String := String.mk (s.data.map Char.toLower)

/-- JavaScript `s.endsWith(t)`. -/
def jsEndsWith (s t : String) : Bool := t.data.reverse.isPrefixOf s.data.reverse

/-- Does `pat` occur as a contiguous substring of `l`?  Models
JavaScript `String.prototype.includes`. -/
def charsContains (l pat : List Char) : Bool :=
  match l with
  | [] => pat.isPrefixOf []
  | _ :: tl => pat.isPrefixOf l || charsContains tl pat

/-- JavaScript `s.includes(pat)`. -/
def jsIncludes (s pat : String) : Bool := charsContains s.data pat.data

/-- Split a character list at every occurrence of the separator character. -/
def charsSplit (sep : Char) : List Char → List (List Char)
  | [] => [[]]
  | c :: tl =>
    let rest := charsSplit sep tl
    if c = sep then [] :: rest
    else
      match rest with
      | [] => [[c]]
      | r :: rs => (c :: r) :: rs

/-- The segments of a path, split at `/`. -/
def pathSegs (p : String) : List String := (charsSplit '/' p.data).map String.mk

/-- Join string pieces with a separator, like `Array.prototype.join`. -/
def joinWith (sep : String) : List String → String
  | [] => ""
  | [x] => x
  | x :: xs => x ++ sep ++ joinWith sep xs

/-- `"#".repeat(n)` — a run of `n` hash characters. -/
def hashRun (n : Nat) : String := String.mk (List.replicate n '#')

/-- Concatenation of a list of strings (`array.join("")` / repeated
`content += ...`). -/
def concatAll : List String → String
  | [] => ""
  | x :: xs => x ++ concatAll xs

/-!  ## The JavaScript value model

`fast-xml-parser` (configured with `ignoreAttributes: false`,
`attributeNamePrefix: ""`, `textNodeName: "#text"`) returns plain JavaScript
data: objects whose keys are tag/attribute names, strings, numbers
(`parseAttributeValue: true` in the converter's parser), booleans, and arrays
for repeated siblings.  `XVal` models such values; objects are ordered
key/value lists, matching JavaScript property-insertion order, which the
handlers observe through `Object.keys`. -/

inductive XVal where
  | str : String → XVal
  | num : Int → XVal
  | bool : Bool → XVal
  | obj : List (String × XVal) → XVal
  | arr : List XVal → XVal
deriving Repr

/-- JavaScript truthiness of a value (`""`, `0`, `false` are falsy;
objects and arrays are always truthy). -/
def truthyV : XVal → Bool
  | .str s => s ≠ ""
  | .num n => n ≠ 0
  | .bool b => b
  | .obj _ => true
  | .arr _ => true

/-- Truthiness of a possibly-`undefined` value (`undefined` is falsy). -/
def truthyO : Option XVal → Bool
  | none => false
  | some v => truthyV v

mutual

/-- JavaScript string coercion, as performed by `+` / template literals.
Arrays stringify as their comma-joined elements, objects as
`[object Object]`. -/
def toStr : XVal → String
  | .str s => s
  | .num n => toString n
  | .bool b => if b then "true" else "false"
  | .obj _ => "[object Object]"
  | .arr l => toStrList l

/-- Comma-joined stringification of an array's elements. -/
def toStrList : List XVal → String
  | [] => ""
  | [x] => toStr x
  | x :: xs => toStr x ++ "," ++ toStrList xs

end

/-- First value bound to key `k` in an object field list (JavaScript property
lookup; object literals have unique keys, so "first" is exact). -/
def getF (o : List (String × XVal)) (k : String) : Option XVal :=
  match o with
  | [] => none
  | (k', v) :: tl => if k' = k then some v else getF tl k

/-- JavaScript property access `v[k]`: defined on objects, `undefined`
elsewhere (the source never reads named properties off strings or arrays). -/
def getV (v : XVal) (k : String) : Option XVal :=
  match v with
  | .obj o => getF o k
  | _ => none

/-- JavaScript property assignment inside an object literal spread
(`{...o, k: v}`): an existing key keeps its position and is overwritten,
a new key is appended. -/
def setF (o : List (String × XVal)) (k : String) (v : XVal) :
    List (String × XVal) :=
  if o.any (fun p => p.1 = k) then
    o.map (fun p => if p.1 = k then (k, v) else p)
  else o ++ [(k, v)]

/-- The own enumerable properties of a value, as `Object.keys`/object spread
see them: objects give their fields, arrays index-keyed elements, strings
index-keyed characters, primitives nothing. -/
def jsFields : XVal → List (String × XVal)
  | .obj o => o
  | .arr l => l.enum.map (fun p => (toString p.1, p.2))
  | .str s => s.data.enum.map (fun p => (toString p.1, .str (String.mk [p.2])))
  | _ => []

/-- `{...child, type: k, tagName: k}` — the child-node wrapper used throughout
`xmlhandlers` before recursing. -/
def withType (o : List (String × XVal)) (k : String) : List (String × XVal) :=
  setF (setF o "type" (.str k)) "tagName" (.str k)

/-- JavaScript `x || ""` followed by string interpolation. -/
def jsOrEmptyStr (v : Option XVal) : String :=
  match v with
  | some x => if truthyV x then toStr x else ""
  | none => ""

/-- `x?.trim() || ""` where `x` is expected to be a text value: `undefined`
and empty results give `""`.  (On a non-string the source would raise a
`TypeError`; theorems about nodes with non-string `#text` fields therefore
carry a hypothesis excluding them where the distinction matters.) -/
def textTrimOrEmpty (v : Option XVal) : String :=
  match v with
  | some (.str s) => jsTrim s
  | _ => ""

/-- Is the value a JavaScript object in the `typeof` sense relevant here
(`typeof v === "object"` — true for objects and arrays)? -/
def isObjLike : XVal → Bool
  | .obj _ => true
  | .arr _ => true
  | _ => false

/-- A string value that, trimmed, equals the element's own kind name —
the XML-parsing artifact each response handler filters out
(`typeof value === "string" && value.trim() === "<kind>"`). -/
def isSelfText (v : XVal) (name : String) : Bool :=
  match v with
  | .str s => jsTrim s = name
  | _ => false

/-- The "template paragraph" filter shared by the response handlers:
`const text = value["#text"]?.trim() || ""` followed by
`text.includes("You can use this template") || text === ""`. -/
def isTemplateP (v : XVal) : Bool :=
  let text := textTrimOrEmpty (getV v "#text")
  jsIncludes text "You can use this template" || text = ""

/-- `x ? (Array.isArray(x) ? x : [x]) : []` — the array coercion applied to
`node.choice`, `node.hint` and `node.option`. -/
def jsTernaryArr (v : Option XVal) : List XVal :=
  match v with
  | none => []
  | some x => if truthyV x then (match x with | .arr l => l | _ => [x]) else []

/-- The `correct`-flag normalization repeated at each render site:
`undefined` is false, booleans pass through, strings compare
case-insensitively against `"true"`, anything else is `Boolean(x)`. -/
def normCorrect (v : Option XVal) : Bool :=
  match v with
  | none => false
  | some (.bool b) => b
  | some (.str s) => jsToLower s = "true"
  | some x => truthyV x

/-- The shared per-value dispatch appearing in every recursive handler:
an array transforms each element (objects and arrays are re-wrapped with
`{...child, type: key, tagName: key}`, primitives become
`{type: "_", "#text": child}`), a lone object is re-wrapped the same way,
a string is appended verbatim, and numbers/booleans contribute nothing. -/
def dispatchVal (tr : XVal → Nat → String) (k : String) (v : XVal)
    (depth : Nat) : String :=
  match v with
  | .arr l =>
    concatAll (l.map (fun c =>
      if isObjLike c then tr (.obj (withType (jsFields c) k)) depth
      else tr (.obj [("type", .str "_"), ("#text", c)]) depth))
  | .obj vo => tr (.obj (withType vo k)) depth
  | .str s => s
  | _ => ""

namespace xmlhandlers

/-- `xmlhandlers.problem`: concatenates the transform of every child key
except `#text`, `display_name` and `markdown` whose value is object-typed. -/
def problem (tr : XVal → Nat → String) (node : XVal) (depth : Nat) : String :=
  concatAll ((jsFields node).map (fun kv =>
    if kv.1 ≠ "#text" ∧ kv.1 ≠ "display_name" ∧ kv.1 ≠ "markdown"
        ∧ isObjLike kv.2 then
      tr (.obj (withType (jsFields kv.2) kv.1)) depth
    else ""))

/-- `xmlhandlers.multiplechoiceresponse`: recursive pass over child keys,
skipping metadata keys, template paragraphs and the self-name artifact. -/
def multiplechoiceresponse (tr : XVal → Nat → String) (node : XVal)
    (depth : Nat) : String :=
  concatAll ((jsFields node).map (fun kv =>
    let k := kv.1
    let v := kv.2
    if k = "#text" ∨ k = "type" ∨ k = "display_name" ∨ k = "markdown" then ""
    else if k = "p" ∧ isTemplateP v then ""
    else if isSelfText v "multiplechoiceresponse" then ""
    else dispatchVal tr k v depth))

/-- `xmlhandlers.choiceresponse`: same pass with the `choiceresponse`
self-name artifact. -/
def choiceresponse (tr : XVal → Nat → String) (node : XVal)
    (depth : Nat) : String :=
  concatAll ((jsFields node).map (fun kv =>
    let k := kv.1
    let v := kv.2
    if k = "#text" ∨ k = "type" ∨ k = "display_name" ∨ k = "markdown" then ""
    else if k = "p" ∧ isTemplateP v then ""
    else if isSelfText v "choiceresponse" then ""
    else dispatchVal tr k v depth))

/-- The prompt content accumulated by `xmlhandlers.stringresponse`: children
except `#text`, `answer`, `type`, `additional_answer`, with the self-name
artifact and template-paragraph filters. -/
def stringresponseContent (tr : XVal → Nat → String) (node : XVal)
    (depth : Nat) : String :=
  concatAll ((jsFields node).map (fun kv =>
    let k := kv.1
    let v := kv.2
    if k = "#text" ∨ k = "answer" ∨ k = "type" ∨ k = "additional_answer" then ""
    else if isSelfText v "stringresponse" then ""
    else if k = "p" ∧ isTemplateP v then ""
    else dispatchVal tr k v depth))

/-- `xmlhandlers.stringresponse`: renders the filtered prompt content, then
`"\n\n[[" + (node.answer || "") + "]]\n"`. -/
def stringresponse (tr : XVal → Nat → String) (node : XVal)
    (depth : Nat) : String :=
  jsTrim (stringresponseContent tr node depth) ++ "\n\n[[" ++
    jsOrEmptyStr (getV node "answer") ++ "]]\n"

/-- The prompt content accumulated by `xmlhandlers.numericalresponse`: like
`stringresponseContent` but only `#text` and `answer` are excluded. -/
def numericalresponseContent (tr : XVal → Nat → String) (node : XVal)
    (depth : Nat) : String :=
  concatAll ((jsFields node).map (fun kv =>
    let k := kv.1
    let v := kv.2
    if k = "#text" ∨ k = "answer" then ""
    else if isSelfText v "numericalresponse" then ""
    else if k = "p" ∧ isTemplateP v then ""
    else dispatchVal tr k v depth))

/-- `xmlhandlers.numericalresponse`: renders the filtered prompt content,
then `"\n\n[[" + (node.answer || "") + "]]\n"`. -/
def numericalresponse (tr : XVal → Nat → String) (node : XVal)
    (depth : Nat) : String :=
  jsTrim (numericalresponseContent tr node depth) ++ "\n\n[[" ++
    jsOrEmptyStr (getV node "answer") ++ "]]\n"

/-- `xmlhandlers.responseparam`: renders nothing. -/
def responseparam (_tr : XVal → Nat → String) (_node : XVal)
    (_depth : Nat) : String := ""

/-- `xmlhandlers.choicegroup`: a leading blank separator (`"\n\n"`), then one
`- [(x)]` / `- [( )]` line per choice. -/
def choicegroup (_tr : XVal → Nat → String) (node : XVal)
    (_depth : Nat) : String :=
  let choices := jsTernaryArr (getV node "choice")
  "\n\n" ++ concatAll (choices.map (fun choice =>
    "- " ++ (if normCorrect (getV choice "correct") then "[(x)]" else "[( )]")
      ++ " " ++ textTrimOrEmpty (getV choice "#text") ++ "\n"))

/-- `xmlhandlers.choice`: a single choice line (normally reached only when a
bare `choice` appears outside a group). -/
def choice (_tr : XVal → Nat → String) (node : XVal) (_depth : Nat) : String :=
  "- " ++ (if normCorrect (getV node "correct") then "[(x)]" else "[( )]")
    ++ " " ++ textTrimOrEmpty (getV node "#text") ++ "\n"

/-- `xmlhandlers.checkboxgroup`: a leading blank separator (`"\n\n"`), then
one `- [[x]]` / `- [[ ]]` line per choice; no extra trailing newline. -/
def checkboxgroup (_tr : XVal → Nat → String) (node : XVal)
    (_depth : Nat) : String :=
  let choices := jsTernaryArr (getV node "choice")
  "\n\n" ++ concatAll (choices.map (fun choice =>
    "- " ++ (if normCorrect (getV choice "correct") then "[[x]]" else "[[ ]]")
      ++ " " ++ textTrimOrEmpty (getV choice "#text") ++ "\n"))

/-- `xmlhandlers.demandhint`: each hint becomes `- [[?]] <text>`, with the
hint transformed as `{...h, type: "_", tagName: "hint"}` and trimmed; lines
joined by `"\n"`; zero hints render nothing. -/
def demandhint (tr : XVal → Nat → String) (node : XVal) (depth : Nat) : String :=
  let hints := jsTernaryArr (getV node "hint")
  if hints.length = 0 then ""
  else
    joinWith "\n" (hints.map (fun h =>
      "- [[?]] " ++
        jsTrim (tr (.obj (setF (setF (jsFields h) "type" (.str "_"))
          "tagName" (.str "hint"))) depth)))

/-- `xmlhandlers.choicehint`: renders nothing. -/
def choicehint (_tr : XVal → Nat → String) (_node : XVal)
    (_depth : Nat) : String := ""

/-- `xmlhandlers.optionresponse`: recursive pass over all child keys except
`#text`, with the self-name artifact and template-paragraph filters. -/
def optionresponse (tr : XVal → Nat → String) (node : XVal)
    (depth : Nat) : String :=
  concatAll ((jsFields node).map (fun kv =>
    let k := kv.1
    let v := kv.2
    if k = "#text" then ""
    else if isSelfText v "optionresponse" then ""
    else if k = "p" ∧ isTemplateP v then ""
    else dispatchVal tr k v depth))

/-- `xmlhandlers.optioninput`: the dropdown encoding
`"\n\n[[" + options joined by "\n| " + "\n]]\n\n"`, wrapping the correct
option's text in parentheses; zero options render nothing. -/
def optioninput (_tr : XVal → Nat → String) (node : XVal)
    (_depth : Nat) : String :=
  let options := jsTernaryArr (getV node "option")
  if options.length = 0 then ""
  else
    "\n\n[[" ++
      joinWith "\n| " (options.map (fun opt =>
        let text := textTrimOrEmpty (getV opt "#text")
        if normCorrect (getV opt "correct") then "(" ++ text ++ ")" else text))
      ++ "\n]]\n\n"

/-- `xmlhandlers.option`: renders nothing (handled by `optioninput`). -/
def option (_tr : XVal → Nat → String) (_node : XVal)
    (_depth : Nat) : String := ""

/-- `xmlhandlers.textline`: renders nothing. -/
def textline (_tr : XVal → Nat → String) (_node : XVal)
    (_depth : Nat) : String := ""

/-- `xmlhandlers.additional_answer`: renders nothing (alternate answers are
out of scope by design). -/
def additional_answer (_tr : XVal → Nat → String) (_node : XVal)
    (_depth : Nat) : String := ""

/-- `xmlhandlers.compoundhint`: renders nothing. -/
def compoundhint (_tr : XVal → Nat → String) (_node : XVal)
    (_depth : Nat) : String := ""

/-- The child concatenation computed by the default handler `xmlhandlers._`:
every key except `#text`, `tagName` and `type` is dispatched. -/
def fallbackChildren (tr : XVal → Nat → String) (node : XVal)
    (depth : Nat) : String :=
  concatAll ((jsFields node).map (fun kv =>
    if kv.1 = "#text" ∨ kv.1 = "tagName" ∨ kv.1 = "type" then ""
    else dispatchVal tr kv.1 kv.2 depth))

/-- The element name reported by the default handler's banner:
`node?.tagName || node?.type || "unknown"`. -/
def fallbackTagName (node : XVal) : String :=
  if truthyO (getV node "tagName") then
    toStr ((getV node "tagName").getD (.str ""))
  else if truthyO (getV node "type") then
    toStr ((getV node "type").getD (.str ""))
  else "unknown"

/-- `xmlhandlers._`, the default handler: a string node is returned verbatim;
a node with truthy direct `#text` returns it; otherwise child elements
(all keys except `#text`, `tagName`, `type`) are transformed and their
concatenation returned when it trims non-empty; otherwise the visible
`> **Unsupported content: <tagName> component omitted**` banner is emitted,
naming `node.tagName || node.type || "unknown"`. -/
def fallback (tr : XVal → Nat → String) (node : XVal) (depth : Nat) : String :=
  match node with
  | .str s => s
  | _ =>
    if truthyO (getV node "#text") then
      toStr ((getV node "#text").getD (.str ""))
    else
      let content := fallbackChildren tr node depth
      if jsTrim content ≠ "" then content
      else "> **Unsupported content: " ++ fallbackTagName node ++
        " component omitted**\n\n"

end xmlhandlers

/-- The transformer produced by `makeTransformer(xmlhandlers)`: a falsy node
renders `""`; otherwise the handler keyed by `node.type` runs, the default
`_` handler standing in for unknown (or non-string, or missing) kinds.
Recursion is fuelled: `fuel` bounds the nesting depth of the value being
rendered (the JavaScript recursion always terminates on the finite parsed
values, and every theorem below quantifies over or instantiates the fuel). -/
def xmlTransform : Nat → XVal → Nat → String
  | 0, _, _ => ""
  | fuel + 1, node, depth =>
    if truthyV node = false then ""
    else
      let tr := fun n d => xmlTransform fuel n d
      match getV node "type" with
      | some (.str t) =>
        if t = "problem" then xmlhandlers.problem tr node depth
        else if t = "multiplechoiceresponse" then
          xmlhandlers.multiplechoiceresponse tr node depth
        else if t = "choiceresponse" then xmlhandlers.choiceresponse tr node depth
        else if t = "stringresponse" then xmlhandlers.stringresponse tr node depth
        else if t = "numericalresponse" then
          xmlhandlers.numericalresponse tr node depth
        else if t = "responseparam" then xmlhandlers.responseparam tr node depth
        else if t = "choicegroup" then xmlhandlers.choicegroup tr node depth
        else if t = "choice" then xmlhandlers.choice tr node depth
        else if t = "checkboxgroup" then xmlhandlers.checkboxgroup tr node depth
        else if t = "demandhint" then xmlhandlers.demandhint tr node depth
        else if t = "choicehint" then xmlhandlers.choicehint tr node depth
        else if t = "optionresponse" then xmlhandlers.optionresponse tr node depth
        else if t = "optioninput" then xmlhandlers.optioninput tr node depth
        else if t = "option" then xmlhandlers.option tr node depth
        else if t = "textline" then xmlhandlers.textline tr node depth
        else if t = "additional_answer" then
          xmlhandlers.additional_answer tr node depth
        else if t = "compoundhint" then xmlhandlers.compoundhint tr node depth
        else xmlhandlers.fallback tr node depth
      | _ => xmlhandlers.fallback tr node depth

/-- `xmlToMarkdown` — the exported quiz transformer, entered at depth 0. -/
def xmlToMarkdown (fuel : Nat) (node : XVal) : String :=
  xmlTransform fuel node 0

/-!  ## Paths and the environment

`fs`, the XML parsers and the HTML-to-Markdown converter are external
collaborators; an `Env` packages them as pure data.  Path functions mirror
Node's `path` module on the plain relative paths the converter builds
(no `..` segments, no trailing slashes). -/

/-- Node `path.basename(p)`: the last `/`-separated segment. -/
def basename (p : String) : String := (pathSegs p).getLastD ""

/-- Index of the last `.` in a character list, if any. -/
def lastDotIdx (l : List Char) : Option Nat :=
  (l.enum.filterMap (fun pc => if pc.2 = '.' then some pc.1 else none)).getLast?

/-- Node `path.extname(p)`: the suffix of the base name from its last dot;
empty when there is no dot or the only dot is leading (dotfiles). -/
def extname (p : String) : String :=
  let b := (basename p).data
  match lastDotIdx b with
  | none => ""
  | some 0 => ""
  | some i => String.mk (b.drop i)

/-- Node `path.dirname(p)`. -/
def dirname (p : String) : String :=
  let segs := pathSegs p
  if segs.length ≤ 1 then "."
  else
    let d := joinWith "/" segs.dropLast
    if d = "" then "/" else d

/-- Node `path.join(a, b)` on the already-clean segments used here. -/
def pjoin (a b : String) : String := if a = "" then b else a ++ "/" ++ b

/-- Node `path.basename(p, suffix)`: the base name with a matching suffix
removed (kept when the whole base name equals the suffix). -/
def basenameMinus (p suf : String) : String :=
  let b := basename p
  if jsEndsWith b suf ∧ b ≠ suf then
    String.mk (b.data.take (b.data.length - suf.data.length))
  else b

/-- The external world: a file system (path-to-content map), the converter's
attribute-parsing XML parser, the builder's plain XML parser, and the
`NodeHtmlMarkdown` translator.  A parser returning `none` models a file
whose contents fail to parse (the thrown error the source catches). -/
structure Env where
  fsFiles : List (String × String)
  parseXmlAttr : String → Option XVal
  parseXmlPlain : String → Option XVal
  nhmTranslate : String → String

/-- `fs.readFileSync`, fallibly: the stored content of a path. -/
def Env.read? (env : Env) (p : String) : Option String :=
  (env.fsFiles.find? (fun q => q.1 = p)).map (fun q => q.2)

/-- `fs.existsSync`. -/
def Env.existsb (env : Env) (p : String) : Bool := (env.read? p).isSome

/-- `readXmlFile` in `courseconverter.js`: read and parse with the
attribute-parsing parser, `null` (here `none`) on any error. -/
def readXmlFile (env : Env) (p : String) : Option XVal :=
  match env.read? p with
  | none => none
  | some content => env.parseXmlAttr content

/-- The body of `readFileContent` after the `existsSync` guard has passed:
XML files (by requested type or extension) are parsed, re-rooted as
`{...xmlData, type: firstKey, tagName: firstKey}` and sent through
`xmlToMarkdown`, with a parse-error banner on failure; HTML files go through
the external converter; anything else is returned as plain text. -/
def readFileContentExisting (env : Env) (fuel : Nat) (p ty : String) : String :=
  let ext := jsToLower (extname p)
  if ty = "xml" ∨ ext = ".xml" then
    match readXmlFile env p with
    | some xmlData =>
      let flds := jsFields xmlData
      let root :=
        match flds.head? with
        | some kv => XVal.obj (withType flds kv.1)
        | none => XVal.obj flds
      xmlToMarkdown fuel root
    | none => "> **Error parsing XML file: " ++ p ++ "**\n\n"
  else if ty = "html" ∨ ext = ".html" ∨ ext = ".htm" then
    env.nhmTranslate ((env.read? p).getD "")
  else (env.read? p).getD ""

/-- `readFileContent`: a missing file yields the
`> **File not found: <path>**` banner, otherwise the guarded body runs. -/
def readFileContent (env : Env) (fuel : Nat) (p ty : String) : String :=
  if env.existsb p = false then "> **File not found: " ++ p ++ "**\n\n"
  else readFileContentExisting env fuel p ty

/-!  ## The course tree and its renderer -/

/-- A resolved course-tree node, as assembled by `buildTree`.  The builder
never populates `verticals`/`problems` (they stay `[]`, standing for the
absent — falsy — JavaScript properties the `sequential` renderer probes),
but the renderer reads them, so they are modelled.  `videoData` and
`problemData` hold raw parsed XML; `url_name` is carried on
`vertical-container` nodes only. -/
inductive MNode where
  | mk : (ty : String) → (display_name : Option String) → (file : Option String) →
      (children : List MNode) → (verticals : List MNode) →
      (problems : List MNode) → (videoData : Option XVal) →
      (problemData : Option XVal) → (url_name : Option XVal) → MNode

/-- The node's kind (`node.type`). -/
def MNode.ty : MNode → String
  | .mk t _ _ _ _ _ _ _ _ => t

/-- The node's optional display name (`none` models a missing/null value). -/
def MNode.display_name : MNode → Option String
  | .mk _ d _ _ _ _ _ _ _ => d

/-- The node's optional source-file path. -/
def MNode.file : MNode → Option String
  | .mk _ _ f _ _ _ _ _ _ => f

/-- The node's ordered children. -/
def MNode.children : MNode → List MNode
  | .mk _ _ _ c _ _ _ _ _ => c

/-- The node's `verticals` list (renderer-only; never set by the builder). -/
def MNode.verticals : MNode → List MNode
  | .mk _ _ _ _ v _ _ _ _ => v

/-- The node's `problems` list (renderer-only; never set by the builder). -/
def MNode.problems : MNode → List MNode
  | .mk _ _ _ _ _ p _ _ _ => p

/-- The node's raw video metadata, when it is a `video` node. -/
def MNode.videoData : MNode → Option XVal
  | .mk _ _ _ _ _ _ vd _ _ => vd

/-- `node.display_name || path.basename(node.file)` — the heading-name
fallback of the `course`/`chapter`/`sequential` handlers.  (A node with a
falsy display name and no `file` would make the source throw inside
`path.basename(undefined)`; the builder always sets `file` on these kinds.) -/
def displayOrBase (dn : Option String) (file : Option String) : String :=
  match dn with
  | some s => if s ≠ "" then s else basename (file.getD "undefined")
  | none => basename (file.getD "undefined")

/-- Template-literal interpolation of a possibly-undefined string:
JavaScript prints `undefined` for a missing value. -/
def jsShowOpt : Option String → String
  | some s => s
  | none => "undefined"

/-- `x || dflt` under string interpolation: the stringified value when
truthy, otherwise the default. -/
def truthyToStr (v : Option XVal) (dflt : String) : String :=
  if truthyO v then toStr (v.getD (.str "")) else dflt

mutual

/-- `treeToMarkdown = makeTransformer(markdownHandlers)`: renders a resolved
course-tree node at a heading depth.  Each branch mirrors one handler of the
`markdownHandlers` table; kinds without a handler (notably
`vertical-container`) take the table's `_` default, which renders children
one depth deeper.  `fuel` is only threaded through to `xmlToMarkdown` for
problem files. -/
def treeToMarkdown (env : Env) (fuel : Nat) : MNode → Nat → String
  | .mk ty dn file ch verts probs vd _pd _un, depth =>
    if ty = "about" then
      hashRun (min (depth + 1) 6) ++ " " ++ jsShowOpt dn ++ "\n\n" ++
        treeToMarkdownList env fuel ch (depth + 1)
    else if ty = "course" then
      hashRun (min (depth + 1) 6) ++ " " ++ displayOrBase dn file ++ "\n\n" ++
        treeToMarkdownList env fuel ch (depth + 1)
    else if ty = "chapter" then
      hashRun (min (depth + 1) 6) ++ " " ++ displayOrBase dn file ++ "\n\n" ++
        treeToMarkdownList env fuel ch (depth + 1)
    else if ty = "sequential" then
      hashRun (min (depth + 1) 6) ++ " " ++ displayOrBase dn file ++ "\n\n" ++
        treeToMarkdownList env fuel verts (depth + 1) ++
        treeToMarkdownList env fuel probs (depth + 1) ++
        treeToMarkdownList env fuel ch (depth + 1)
    else if ty = "vertical" then
      treeToMarkdownList env fuel ch depth
    else if ty = "problem" then
      (match file with
       | some f =>
         if f ≠ "" ∧ env.existsb f then
           readFileContent env fuel f
             (if jsToLower (extname f) = ".xml" then "xml" else "problem") ++ "\n"
         else ""
       | none => "") ++
      treeToMarkdownList env fuel ch depth ++ "\n\n---\n\n"
    else if ty = "html" then
      treeToMarkdownList env fuel ch depth
    else if ty = "htmlContent" then
      match file with
      | some f =>
        if f ≠ "" ∧ env.existsb f then readFileContent env fuel f "html" ++ "\n\n"
        else ""
      | none => ""
    else if ty = "image" then
      match file with
      | some f =>
        if f ≠ "" ∧ env.existsb f then
          "![" ++
            (match dn with
             | some s => if s ≠ "" then s else basenameMinus f (extname f)
             | none => basenameMinus f (extname f)) ++
            "](../images/" ++ basename f ++ ")\n\n"
        else ""
      | none => ""
    else if ty = "video" then
      match vd with
      | none => ""
      | some video =>
        if truthyV video = false then ""
        else
          let ytv :=
            if truthyO (getV video "youtube_id_1_0") then
              getV video "youtube_id_1_0"
            else getV video "youtube"
          if truthyO ytv then
            "!?[" ++ truthyToStr (getV video "display_name") "Video" ++
              "](https://www.youtube.com/watch?v=" ++
              toStr (ytv.getD (.str "")) ++ ")\n\n"
          else ""
    else
      treeToMarkdownList env fuel ch (depth + 1)

/-- Concatenated rendering of a list of siblings at one depth
(`children.map((child) => transform(child, d)).join("")`). -/
def treeToMarkdownList (env : Env) (fuel : Nat) : List MNode → Nat → String
  | [], _ => ""
  | x :: xs, d => treeToMarkdown env fuel x d ++ treeToMarkdownList env fuel xs d

end

/-!  ## The course-tree builder -/

/-- `parseXmlFile` of the builder module: read and parse with the plain
parser, `null` (here `none`) on any error. -/
def parseXmlFile (env : Env) (p : String) : Option XVal :=
  match env.read? p with
  | none => none
  | some content => env.parseXmlPlain content

/-- `ensureArray`: `[]` for a falsy value, an array as-is, anything else as a
one-element array. -/
def ensureArray (v : Option XVal) : List XVal :=
  match v with
  | none => []
  | some x =>
    if truthyV x = false then []
    else match x with
    | .arr l => l
    | _ => [x]

/-- `<ref>.url_name + ".xml"` — JavaScript `+` stringifies the value and an
absent `url_name` prints as `undefined`. -/
def urlNameXml (ref : XVal) : String :=
  (match getV ref "url_name" with
   | none => "undefined"
   | some v => toStr v) ++ ".xml"

/-- `path.join(parentDir, kind, ref.url_name + ".xml")` — the filename
convention resolving one cross-reference. -/
def refPath (parentDir kind : String) (ref : XVal) : String :=
  pjoin (pjoin parentDir kind) (urlNameXml ref)

/-- The `course` branch's chapter resolution:
`chapters.map((ch) => buildTree(chapterPath, "chapter")).filter(Boolean)`. -/
def chapterRefChildren (bt : String → String → Option MNode)
    (parentDir : String) (chs : List XVal) : List MNode :=
  chs.filterMap (fun ch => bt (refPath parentDir "chapter" ch) "chapter")

/-- The `chapter` branch's sequential resolution (same map-and-filter). -/
def sequentialRefChildren (bt : String → String → Option MNode)
    (parentDir : String) (seqs : List XVal) : List MNode :=
  seqs.filterMap (fun seq => bt (refPath parentDir "sequential" seq) "sequential")

/-- The `sequential` branch's vertical resolution: each built vertical is
flattened into a synthetic `vertical-container` carrying the vertical's
display name and children.  (The source additionally tests
`verticalNode.children`, but every node `buildTree` returns carries a
`children` array, which is always truthy in JavaScript.) -/
def verticalContainers (bt : String → String → Option MNode)
    (parentDir : String) (verts : List XVal) : List MNode :=
  verts.filterMap (fun vert =>
    match bt (refPath parentDir "vertical" vert) "vertical" with
    | some vn =>
      some (MNode.mk "vertical-container" vn.display_name none vn.children
        [] [] none none (getV vert "url_name"))
    | none => none)

/-- The `vertical` branch's children: problem references, then html
references, then video references, each pre-checked with `fs.existsSync`
before recursing and with failed builds filtered out. -/
def vertChildren (env : Env) (bt : String → String → Option MNode)
    (parentDir : String) (probs htmls vids : List XVal) : List MNode :=
  probs.filterMap (fun prob =>
    let p := refPath parentDir "problem" prob
    if env.existsb p then bt p "problem" else none) ++
  htmls.filterMap (fun h =>
    let p := refPath parentDir "html" h
    if env.existsb p then bt p "html" else none) ++
  vids.filterMap (fun v =>
    let p := refPath parentDir "video" v
    if env.existsb p then bt p "video" else none)

/-- `x || null` followed by storage of the (string-coerced) value: the
builder's parser leaves attribute values as strings, so storing the
coercion preserves later truthiness tests. -/
def jsStrOrNull (v : Option XVal) : Option String :=
  if truthyO v then some (toStr (v.getD (.str ""))) else none

/-- Raw storage of a possibly-absent attribute under string coercion
(used where the source stores `obj.course.display_name` with no default). -/
def jsStrRaw (v : Option XVal) : Option String := v.map toStr

/-- `buildTree(filePath, type)`: `none` models the source's `null` — file
missing, wrong extension, parse failure, or an XML root of no recognized
kind.  Recursion is fuelled (`none` at fuel 0; the cross-reference graph of
a real export is finite and acyclic, and theorems pick their own fuel). -/
def buildTree (env : Env) : Nat → String → String → Option MNode
  | 0, _, _ => none
  | fuel + 1, filePath, ty =>
    if (env.existsb filePath && jsEndsWith filePath ".xml") = false then none
    else
      match parseXmlFile env filePath with
      | none => none
      | some obj =>
        let dir := dirname filePath
        let parentDir := dirname dir
        let bt := fun p k => buildTree env fuel p k
        if ty = "about" ∧ truthyO (getV obj "about") then
          let aboutV := (getV obj "about").getD (.str "")
          let overviewHtmlPath := pjoin (pjoin dir "course") "overview.html"
          let children :=
            if env.existsb overviewHtmlPath then
              [MNode.mk "htmlContent" (some "Course Overview")
                (some overviewHtmlPath) [] [] [] none none none]
            else []
          some (MNode.mk "about"
            (some (truthyToStr (getV aboutV "display_name") "About"))
            (some filePath) children [] [] none none none)
        else if truthyO (getV obj "course") then
          let courseV := (getV obj "course").getD (.str "")
          let chapters := ensureArray (getV courseV "chapter")
          let courseRootDir := dirname dir
          let overviewPath := pjoin (pjoin courseRootDir "about") "overview.html"
          let aboutLead :=
            if env.existsb overviewPath then
              [MNode.mk "about" (some "About") none
                [MNode.mk "htmlContent" (some "Course Overview")
                  (some overviewPath) [] [] [] none none none]
                [] [] none none none]
            else []
          some (MNode.mk "course" (jsStrRaw (getV courseV "display_name"))
            (some filePath)
            (aboutLead ++ chapterRefChildren bt parentDir chapters)
            [] [] none none none)
        else if truthyO (getV obj "chapter") then
          let chapterV := (getV obj "chapter").getD (.str "")
          some (MNode.mk "chapter" (jsStrOrNull (getV chapterV "display_name"))
            (some filePath)
            (sequentialRefChildren bt parentDir
              (ensureArray (getV chapterV "sequential")))
            [] [] none none none)
        else if truthyO (getV obj "sequential") then
          let seqV := (getV obj "sequential").getD (.str "")
          some (MNode.mk "sequential" (jsStrOrNull (getV seqV "display_name"))
            (some filePath)
            (verticalContainers bt parentDir
              (ensureArray (getV seqV "vertical")))
            [] [] none none none)
        else if truthyO (getV obj "vertical") then
          let vertV := (getV obj "vertical").getD (.str "")
          some (MNode.mk "vertical" (jsStrOrNull (getV vertV "display_name"))
            (some filePath)
            (vertChildren env bt parentDir
              (ensureArray (getV vertV "problem"))
              (ensureArray (getV vertV "html"))
              (ensureArray (getV vertV "video")))
            [] [] none none none)
        else if truthyO (getV obj "problem") then
          let probV := (getV obj "problem").getD (.str "")
          some (MNode.mk "problem" (jsStrOrNull (getV probV "display_name"))
            (some filePath) [] [] [] none (getV obj "problem") none)
        else if truthyO (getV obj "html") then
          let htmlV := (getV obj "html").getD (.str "")
          let baseName :=
            truthyToStr (getV htmlV "filename") (basenameMinus filePath ".xml")
          let htmlFilePath := pjoin dir (baseName ++ ".html")
          let children :=
            if env.existsb htmlFilePath then
              [MNode.mk "htmlContent"
                (some (truthyToStr (getV htmlV "display_name") baseName))
                (some htmlFilePath) [] [] [] none none none]
            else []
          some (MNode.mk "html" (jsStrOrNull (getV htmlV "display_name"))
            (some filePath) children [] [] none none none)
        else if truthyO (getV obj "video") then
          let vidV := (getV obj "video").getD (.str "")
          some (MNode.mk "video" (jsStrOrNull (getV vidV "display_name"))
            (some filePath) [] [] [] (getV obj "video") none none)
        else none

/-!  ## Concrete instances used by witnesses and counterexamples -/

/-- An environment with an empty file system and trivial collaborators. -/
def envT : Env :=
  { fsFiles := [], parseXmlAttr := fun _ => none,
    parseXmlPlain := fun _ => none, nhmTranslate := fun s => s }

/-- A parsed `choicegroup` with one correct choice `A` and one plain
choice `B`. -/
def cgA : XVal := .obj [("type", .str "choicegroup"),
  ("choice", .arr [.obj [("correct", .bool true), ("#text", .str "A")],
    .obj [("#text", .str "B")]])]

/-- The same two choices under a `checkboxgroup`. -/
def cbA : XVal := .obj [("type", .str "checkboxgroup"),
  ("choice", .arr [.obj [("correct", .bool true), ("#text", .str "A")],
    .obj [("#text", .str "B")]])]

/-- A parsed `stringresponse` with prompt text `Enter value` and attribute
`answer="42"` (the converter's parser turns the attribute into a number). -/
def srEnter : XVal := .obj [("type", .str "stringresponse"),
  ("p", .obj [("#text", .str "Enter value")]), ("answer", .num 42)]

/-- `srEnter` with an additional alternate answer element attached. -/
def srEnterPlus : XVal := .obj [("type", .str "stringresponse"),
  ("p", .obj [("#text", .str "Enter value")]), ("answer", .num 42),
  ("additional_answer", .obj [("answer", .str "43")])]

/-- The parse of a vertical file whose XML lists an `html` reference
*before* a `problem` reference (the parsed object's key order preserves
that first-occurrence document order). -/
def vertInterleavedXml : XVal := .obj [("vertical", .obj [
  ("html", .obj [("url_name", .str "h1")]),
  ("problem", .obj [("url_name", .str "p1")])])]

/-- The parse of the referenced problem file. -/
def problemRefXml : XVal := .obj [("problem", .obj [("display_name", .str "P")])]

/-- The parse of the referenced html pointer file. -/
def htmlRefXml : XVal := .obj [("html", .obj [])]

/-- An environment holding the interleaved vertical and its two referenced
files. -/
def envC4 : Env :=
  { fsFiles := [("course/vertical/v1.xml", "V"), ("course/problem/p1.xml", "P"),
                ("course/html/h1.xml", "H")],
    parseXmlAttr := fun _ => none,
    parseXmlPlain := fun c =>
      if c = "V" then some vertInterleavedXml
      else if c = "P" then some problemRefXml
      else if c = "H" then some htmlRefXml
      else none,
    nhmTranslate := fun s => s }

/-- An `about` node whose display name is absent. -/
def aboutNoName : MNode :=
  .mk "about" none (some "about/overview.xml") [] [] [] none none none

/-- A chapter node with display name `Y` (a depth-visible child). -/
def chY : MNode := .mk "chapter" (some "Y") (some "chapter/c.xml") [] [] [] none none none

/-- A `vertical-container` holding the depth-visible child. -/
def vcY : MNode := .mk "vertical-container" none none [chY] [] [] none none none

/-- The keys of the `xmlhandlers` table other than the default `_`: a node
whose `type` is none of these (and is not itself `"_"`, which names the
default) is dispatched to the default handler. -/
def xmlHandlerNames : List String :=
  ["problem", "multiplechoiceresponse", "choiceresponse", "stringresponse",
   "numericalresponse", "responseparam", "choicegroup", "choice",
   "checkboxgroup", "demandhint", "choicehint", "optionresponse",
   "optioninput", "option", "textline", "additional_answer", "compoundhint"]

/-!  ## Helper lemmas -/

theorem data_append (s t : String) : (s ++ t).data = s.data ++ t.data := by
  cases s; cases t; rfl

theorem eq_empty_of_data (s : String) (h : s.data = []) : s = "" := by
  cases s with
  | mk d => rw [show d = [] from h]

theorem ne_empty_of_data (s : String) (h : s.data ≠ []) : s ≠ "" := by
  intro he
  apply h
  rw [he]

theorem append_ne_empty_left (s t : String) (h : s ≠ "") : s ++ t ≠ "" := by
  apply ne_empty_of_data
  rw [data_append]
  intro hd
  rcases List.append_eq_nil.mp hd with ⟨h1, _⟩
  exact h (eq_empty_of_data s h1)

theorem toDigitsCore_ne_nil (b f n : Nat) :
    Nat.toDigitsCore b (f + 1) n [] ≠ [] := by
  simp only [Nat.toDigitsCore]
  split
  · simp
  · intro h
    have hl := Nat.toDigitsCore_lens_eq b f (n / b) (Nat.digitChar (n % b)) []
    rw [h] at hl
    simp at hl

theorem natRepr_ne_empty (n : Nat) : Nat.repr n ≠ "" := by
  apply ne_empty_of_data
  show (Nat.toDigitsCore 10 (n + 1) n []).asString.data ≠ []
  simpa [List.asString] using toDigitsCore_ne_nil 10 n n

theorem intToString_ne_empty (i : Int) : toString i ≠ "" := by
  cases i with
  | ofNat m => exact natRepr_ne_empty m
  | negSucc m =>
    apply append_ne_empty_left
    decide

theorem toStr_ne_empty (v : XVal) (h : truthyV v = true)
    (ha : ∀ l, v ≠ XVal.arr l) : toStr v ≠ "" := by
  cases v with
  | str s => simpa [truthyV, toStr] using h
  | num n => exact intToString_ne_empty n
  | bool b =>
    cases b
    · simp [truthyV] at h
    · simp [toStr]
  | obj o => simp [toStr]
  | arr l => exact absurd rfl (ha l)

/-- Bridging equality for a two-line choice block. -/
theorem twoChoiceLines (m1 m2 x y : String) :
    "\n\n" ++ concatAll ["- " ++ m1 ++ " " ++ x ++ "\n",
      "- " ++ m2 ++ " " ++ y ++ "\n"] =
    "\n\n" ++ ("- " ++ m1 ++ " " ++ x ++ "\n" ++ ("- " ++ m2 ++ " " ++ y ++ "\n")) := by
  simp [concatAll]

/-- C1: as stated the claim is false — the rendering of the two-choice
`choicegroup` is not the bare `- [(x)] A\n- [( )] B\n`: the handler emits a
leading blank separator line first. -/
theorem C1_counterexample :
    xmlTransform 2 cgA 0 ≠ "- [(x)] A\n- [( )] B\n" := by
  have h : xmlTransform 2 cgA 0 = "\n\n- [(x)] A\n- [( )] B\n" := rfl
  rw [h]
  decide

/-- C1 (amended): every representation of `correct` — boolean `true`,
string `"true"`/`"TRUE"` for the correct choice; absent, string `"false"`
or boolean `false` for the incorrect one — normalizes to the same marker,
and the two-choice `choicegroup` renders exactly
`"\n\n" ++ "- [(x)] <A>\n" ++ "- [( )] <B>\n"` (the blank separator line
precedes the block). -/
theorem C1_all_correct_forms (fuel depth : Nat) (A B : String)
    (va : XVal) (vb : Option XVal)
    (hva : va = .bool true ∨ va = .str "true" ∨ va = .str "TRUE")
    (hvb : vb = none ∨ vb = some (.str "false") ∨ vb = some (.bool false)) :
    xmlTransform (fuel + 1)
      (.obj [("type", .str "choicegroup"),
        ("choice", .arr [.obj [("correct", va), ("#text", .str A)],
          .obj (vb.toList.map (fun v => ("correct", v)) ++
            [("#text", .str B)])])]) depth =
    "\n\n" ++ ("- " ++ "[(x)]" ++ " " ++ jsTrim A ++ "\n" ++
      ("- " ++ "[( )]" ++ " " ++ jsTrim B ++ "\n")) := by
  rcases hva with h | h | h <;> rcases hvb with h2 | h2 | h2 <;>
    subst h <;> subst h2 <;>
    exact twoChoiceLines "[(x)]" "[( )]" (jsTrim A) (jsTrim B)

/-- C1 witness: the amended theorem at `A`/`B` with a boolean-true correct
flag and an absent one. -/
theorem C1_witness :
    xmlTransform 1
      (.obj [("type", .str "choicegroup"),
        ("choice", .arr [.obj [("correct", .bool true), ("#text", .str "A")],
          .obj [("#text", .str "B")]])]) 0 = "\n\n- [(x)] A\n- [( )] B\n" := by
  have h := C1_all_correct_forms 0 0 "A" "B" (.bool true) none
    (Or.inl rfl) (Or.inl rfl)
  refine Eq.trans ?_ (h.trans (by decide))
  rfl

/-- C2: as stated the claim is false at the two-choice example — the
`checkboxgroup` rendering is not the bare `- [[x]] A\n- [[ ]] B\n` (a
leading blank separator precedes it), and the corresponding `choicegroup`
block is *not* followed by a blank line. -/
theorem C2_counterexample :
    xmlTransform 2 cbA 0 ≠ "- [[x]] A\n- [[ ]] B\n" ∧
    jsEndsWith (xmlTransform 2 cgA 0) "\n\n" = false := by
  constructor
  · have h : xmlTransform 2 cbA 0 = "\n\n- [[x]] A\n- [[ ]] B\n" := rfl
    rw [h]
    decide
  · decide

/-- C2 (amended): for the same two choices (first correct, second not) the
two handlers produce blocks of identical shape — each starts with a blank
separator line and ends with the final choice line's newline, with no
trailing blank line — differing only in the marker family
(`[[x]]`/`[[ ]]` versus `[(x)]`/`[( )]`). -/
theorem C2_checkbox_vs_choice (fuel depth : Nat) (A B : String) :
    xmlTransform (fuel + 1)
      (.obj [("type", .str "checkboxgroup"),
        ("choice", .arr [.obj [("correct", .bool true), ("#text", .str A)],
          .obj [("#text", .str B)]])]) depth =
      "\n\n" ++ ("- " ++ "[[x]]" ++ " " ++ jsTrim A ++ "\n" ++
        ("- " ++ "[[ ]]" ++ " " ++ jsTrim B ++ "\n")) ∧
    xmlTransform (fuel + 1)
      (.obj [("type", .str "choicegroup"),
        ("choice", .arr [.obj [("correct", .bool true), ("#text", .str A)],
          .obj [("#text", .str B)]])]) depth =
      "\n\n" ++ ("- " ++ "[(x)]" ++ " " ++ jsTrim A ++ "\n" ++
        ("- " ++ "[( )]" ++ " " ++ jsTrim B ++ "\n")) := by
  exact ⟨twoChoiceLines "[[x]]" "[[ ]]" (jsTrim A) (jsTrim B),
    twoChoiceLines "[(x)]" "[( )]" (jsTrim A) (jsTrim B)⟩

/-- C3: as stated the claim is false — a `vertical-container` node (which
has no dedicated handler and falls to the renderer's default) does *not*
render its children at its own depth: with a depth-sensitive child the
output differs from the same-depth rendering of the children. -/
theorem C3_counterexample :
    treeToMarkdown envT 1 vcY 0 ≠ treeToMarkdownList envT 1 vcY.children 0 := by
  decide

/-- C3 (amended): `vertical` and `html` nodes emit no heading and render
their children at the same depth; a `vertical-container` node also emits no
heading, but it is handled by the table's default handler, which renders the
children at `depth + 1`. -/
theorem C3_transparent_containers (env : Env) (fuel : Nat) (n : MNode)
    (d : Nat) :
    ((n.ty = "vertical" ∨ n.ty = "html") →
      treeToMarkdown env fuel n d = treeToMarkdownList env fuel n.children d) ∧
    (n.ty = "vertical-container" →
      treeToMarkdown env fuel n d =
        treeToMarkdownList env fuel n.children (d + 1)) := by
  cases n with
  | mk ty dn file ch verts probs vd pd un =>
    refine ⟨fun h => ?_, fun h => ?_⟩
    · simp only [MNode.ty] at h
      rcases h with h | h <;> subst h <;> rfl
    · simp only [MNode.ty] at h
      subst h
      rfl

/-- C3 witness: the amended theorem at a concrete `vertical` node and at the
concrete `vertical-container`. -/
theorem C3_witness :
    treeToMarkdown envT 1 (MNode.mk "vertical" none none [chY] [] [] none none none) 0 =
      treeToMarkdownList envT 1 [chY] 0 ∧
    treeToMarkdown envT 1 vcY 0 = treeToMarkdownList envT 1 [chY] 1 := by
  have h1 := C3_transparent_containers envT 1
    (MNode.mk "vertical" none none [chY] [] [] none none none) 0
  have h2 := C3_transparent_containers envT 1 vcY 0
  exact ⟨h1.1 (Or.inl rfl), h2.2 rfl⟩

/-- C4: as stated the claim is false — a vertical whose XML lists an `html`
reference *before* a `problem` reference (visible in the parsed object's key
order in `envC4`) yields children grouped as problem-then-html, not in the
interleaved document order. -/
theorem C4_counterexample :
    (buildTree envC4 3 "course/vertical/v1.xml" "vertical").map
        (fun n => n.children.map MNode.ty) = some ["problem", "html"] ∧
    (buildTree envC4 3 "course/vertical/v1.xml" "vertical").map
        (fun n => n.children.map MNode.ty) ≠ some ["html", "problem"] := by
  constructor
  · rfl
  · decide

/-- C4 (amended): children are built and appended in source order *within
each reference kind* — resolution distributes over appending a list of
same-kind references, so relative order of surviving same-kind children is
preserved — but the vertical branch groups kinds: all problem children,
then all html children, then all video children, regardless of how the
references interleave in the document; the course branch appends chapters
in source order. -/
theorem C4_children_order (env : Env) (bt : String → String → Option MNode)
    (pd : String) (p1 p2 hs vs : List XVal) (c1 c2 : List XVal) :
    vertChildren env bt pd (p1 ++ p2) hs vs =
      vertChildren env bt pd p1 [] [] ++ vertChildren env bt pd p2 hs vs ∧
    vertChildren env bt pd p1 hs vs =
      vertChildren env bt pd p1 [] [] ++ vertChildren env bt pd [] hs [] ++
        vertChildren env bt pd [] [] vs ∧
    chapterRefChildren bt pd (c1 ++ c2) =
      chapterRefChildren bt pd c1 ++ chapterRefChildren bt pd c2 := by
  refine ⟨?_, ?_, ?_⟩ <;>
    simp [vertChildren, chapterRefChildren, List.filterMap_append,
      List.append_assoc]

/-- C5: an element of unrecognized kind is dispatched to the default
handler, whose behavior is the stated trichotomy — direct text verbatim,
else the child concatenation when it trims non-empty, else the visible
`Unsupported content` banner — and in every case the rendering is
non-empty, so an unrecognized element never renders silently to nothing.
(The `#text` hypothesis rules out array-valued text, which the XML parser
never produces and which JavaScript would stringify unpredictably.) -/
theorem C5_unrecognized_never_silent (fuel : Nat) (o : List (String × XVal))
    (depth : Nat)
    (htype : ∀ t, getF o "type" = some (.str t) → t ∉ xmlHandlerNames)
    (htext : ∀ v, getF o "#text" = some v → ∀ l, v ≠ XVal.arr l) :
    (xmlTransform (fuel + 1) (.obj o) depth =
      xmlhandlers.fallback (fun n d => xmlTransform fuel n d) (.obj o) depth) ∧
    (truthyO (getF o "#text") = true →
      xmlTransform (fuel + 1) (.obj o) depth =
        toStr ((getF o "#text").getD (.str ""))) ∧
    (truthyO (getF o "#text") = false →
      jsTrim (xmlhandlers.fallbackChildren (fun n d => xmlTransform fuel n d)
          (.obj o) depth) ≠ "" →
      xmlTransform (fuel + 1) (.obj o) depth =
        xmlhandlers.fallbackChildren (fun n d => xmlTransform fuel n d)
          (.obj o) depth) ∧
    (truthyO (getF o "#text") = false →
      jsTrim (xmlhandlers.fallbackChildren (fun n d => xmlTransform fuel n d)
          (.obj o) depth) = "" →
      xmlTransform (fuel + 1) (.obj o) depth =
        "> **Unsupported content: " ++ xmlhandlers.fallbackTagName (.obj o) ++
          " component omitted**\n\n") ∧
    xmlTransform (fuel + 1) (.obj o) depth ≠ "" := by
  have hdisp : xmlTransform (fuel + 1) (.obj o) depth =
      xmlhandlers.fallback (fun n d => xmlTransform fuel n d) (.obj o) depth := by
    simp only [xmlTransform, truthyV]
    cases hgt : getV (XVal.obj o) "type" with
    | none => simp
    | some v =>
      cases v with
      | str t =>
        have hni : t ∉ xmlHandlerNames := htype t hgt
        have hne : ∀ s : String, s ∈ xmlHandlerNames → t ≠ s :=
          fun s hs heq => hni (by rw [heq]; exact hs)
        simp only [hne "problem" (by decide),
          hne "multiplechoiceresponse" (by decide),
          hne "choiceresponse" (by decide), hne "stringresponse" (by decide),
          hne "numericalresponse" (by decide), hne "responseparam" (by decide),
          hne "choicegroup" (by decide), hne "choice" (by decide),
          hne "checkboxgroup" (by decide), hne "demandhint" (by decide),
          hne "choicehint" (by decide), hne "optionresponse" (by decide),
          hne "optioninput" (by decide), hne "option" (by decide),
          hne "textline" (by decide), hne "additional_answer" (by decide),
          hne "compoundhint" (by decide)]
        simp
      | num n => simp
      | bool b => simp
      | obj oo => simp
      | arr l => simp
  have hbanner : ("> **Unsupported content: " ++
      xmlhandlers.fallbackTagName (.obj o) ++ " component omitted**\n\n"
        : String) ≠ "" := by
    apply append_ne_empty_left
    apply append_ne_empty_left
    decide
  refine ⟨hdisp, ?_, ?_, ?_, ?_⟩
  · intro htruthy
    rw [hdisp]
    simp [xmlhandlers.fallback, htruthy, getV]
  · intro htruthy hcontent
    rw [hdisp]
    simp only [xmlhandlers.fallback, getV] at htruthy ⊢
    simp [htruthy, hcontent]
  · intro htruthy hcontent
    rw [hdisp]
    simp only [xmlhandlers.fallback, getV] at htruthy ⊢
    simp [htruthy, hcontent]
  · rw [hdisp]
    cases htruthy : truthyO (getF o "#text") with
    | true =>
      obtain ⟨v, hv⟩ : ∃ v, getF o "#text" = some v := by
        cases hg : getF o "#text" with
        | none => rw [hg] at htruthy; simp [truthyO] at htruthy
        | some v => exact ⟨v, rfl⟩
      have hvt : truthyV v = true := by
        rw [hv] at htruthy; simpa [truthyO] using htruthy
      have := toStr_ne_empty v hvt (htext v hv)
      simp only [xmlhandlers.fallback, getV, hv]
      simpa [truthyO, hvt] using this
    | false =>
      simp only [xmlhandlers.fallback, getV] at htruthy ⊢
      by_cases hc : jsTrim (xmlhandlers.fallbackChildren
          (fun n d => xmlTransform fuel n d) (XVal.obj o) depth) = ""
      · simpa [htruthy, hc] using hbanner
      · have hne : xmlhandlers.fallbackChildren
            (fun n d => xmlTransform fuel n d) (XVal.obj o) depth ≠ "" :=
          fun hempty => hc (by rw [hempty]; rfl)
        simpa [htruthy, hc] using hne

/-- C5 witness: a bare element of unrecognized kind `customtag` renders the
visible banner. -/
theorem C5_witness :
    xmlTransform 1 (.obj [("type", .str "customtag")]) 0 =
      "> **Unsupported content: customtag component omitted**\n\n" := by
  have h := C5_unrecognized_never_silent 0 [("type", XVal.str "customtag")] 0
    (fun t ht => by
      simp [getF] at ht
      subst ht
      decide)
    (fun v hv => by simp [getF] at hv)
  have h4 := h.2.2.2.1 (by decide) (by decide)
  exact h4.trans (by decide)

/-- C6: `buildTree` returns an absent result (`none`) — and, being a total
function, cannot throw — whenever the file is missing, lacks the `.xml`
extension, or fails to parse; and the call sites assembling a parent's
children drop such absent results: a problem reference whose file is
missing, or a chapter reference whose build fails, contributes nothing,
leaving exactly the children of the remaining references. -/
theorem C6_soft_failure_omission :
    (∀ (env : Env) (fuel : Nat) (p t : String),
      env.existsb p = false ∨ jsEndsWith p ".xml" = false ∨
        parseXmlFile env p = none →
      buildTree env fuel p t = none) ∧
    (∀ (env : Env) (bt : String → String → Option MNode) (pd : String)
        (hs vs l1 l2 : List XVal) (r : XVal),
      env.existsb (refPath pd "problem" r) = false →
      vertChildren env bt pd (l1 ++ r :: l2) hs vs =
        vertChildren env bt pd (l1 ++ l2) hs vs) ∧
    (∀ (bt : String → String → Option MNode) (pd : String)
        (l1 l2 : List XVal) (r : XVal),
      bt (refPath pd "chapter" r) "chapter" = none →
      chapterRefChildren bt pd (l1 ++ r :: l2) =
        chapterRefChildren bt pd (l1 ++ l2)) := by
  refine ⟨?_, ?_, ?_⟩
  · intro env fuel p t h
    cases fuel with
    | zero => rfl
    | succ f =>
      rcases h with h | h | h
      · simp [buildTree, h]
      · simp [buildTree, h]
      · simp [buildTree, h]
  · intro env bt pd hs vs l1 l2 r h
    simp [vertChildren, List.filterMap_append, List.filterMap_cons, h]
  · intro bt pd l1 l2 r h
    simp [chapterRefChildren, List.filterMap_append, List.filterMap_cons, h]

/-- C6 witness: a missing file builds to `none`. -/
theorem C6_witness : buildTree envT 1 "missing.xml" "course" = none :=
  C6_soft_failure_omission.1 envT 1 "missing.xml" "course" (Or.inl rfl)

theorem str_empty_append (s : String) : "" ++ s = s := by
  cases s
  rfl

/-- Property lookup skips over a middle entry with a different key. -/
theorem getF_middle (o1 o2 : List (String × XVal)) (k : String)
    (x : String × XVal) (hk : x.1 ≠ k) :
    getF (o1 ++ x :: o2) k = getF (o1 ++ o2) k := by
  induction o1 with
  | nil => simp [getF, hk]
  | cons hd tl ih =>
    cases hd with
    | mk k' v' =>
      simp only [List.cons_append, getF]
      split <;> simp [ih]

/-- Concatenating mapped fields skips a middle entry the map sends to
the empty string. -/
theorem concatAll_map_middle (f : String × XVal → String)
    (o1 o2 : List (String × XVal)) (x : String × XVal) (hx : f x = "") :
    concatAll ((o1 ++ x :: o2).map f) = concatAll ((o1 ++ o2).map f) := by
  induction o1 with
  | nil => simp [concatAll, hx, str_empty_append]
  | cons hd tl ih =>
    simp only [List.cons_append, List.map_cons, concatAll]
    exact congrArg (fun z => f hd ++ z) ih

/-- Dispatch: a node typed `stringresponse` runs the `stringresponse`
handler. -/
theorem xmlTransform_stringresponse (fuel depth : Nat)
    (o : List (String × XVal))
    (htype : getF o "type" = some (.str "stringresponse")) :
    xmlTransform (fuel + 1) (.obj o) depth =
      xmlhandlers.stringresponse (fun n d => xmlTransform fuel n d)
        (.obj o) depth := by
  simp only [xmlTransform, truthyV]
  simp [getV, htype]

/-- C7: a `stringresponse` renders its filtered prompt content trimmed,
then a blank line and `[[<answer>]]` where `<answer>` is the single main
`answer` value; inserting an `additional_answer` element anywhere changes
nothing (and the `additional_answer` handler itself renders nothing); the
concrete prompt `Enter value` with answer `42` renders
`"Enter value\n\n[[42]]\n"`. -/
theorem C7_stringresponse_main_answer :
    (xmlTransform 3 srEnter 0 = "Enter value\n\n[[42]]\n") ∧
    (∀ (fuel depth : Nat) (o : List (String × XVal)),
      getF o "type" = some (.str "stringresponse") →
      xmlTransform (fuel + 1) (.obj o) depth =
        jsTrim (xmlhandlers.stringresponseContent
            (fun n d => xmlTransform fuel n d) (.obj o) depth) ++
          "\n\n[[" ++ jsOrEmptyStr (getF o "answer") ++ "]]\n") ∧
    (∀ (fuel depth : Nat) (o1 o2 : List (String × XVal)) (v : XVal),
      getF (o1 ++ ("additional_answer", v) :: o2) "type" =
        some (.str "stringresponse") →
      xmlTransform (fuel + 1)
          (.obj (o1 ++ ("additional_answer", v) :: o2)) depth =
        xmlTransform (fuel + 1) (.obj (o1 ++ o2)) depth) ∧
    (∀ (fuel depth : Nat) (o : List (String × XVal)),
      getF o "type" = some (.str "additional_answer") →
      xmlTransform (fuel + 1) (.obj o) depth = "") := by
  refine ⟨rfl, ?_, ?_, ?_⟩
  · intro fuel depth o htype
    rw [xmlTransform_stringresponse fuel depth o htype]
    rfl
  · intro fuel depth o1 o2 v htype
    have htype2 : getF (o1 ++ o2) "type" = some (.str "stringresponse") :=
      (getF_middle o1 o2 "type" ("additional_answer", v) (by simp)).symm.trans
        htype
    rw [xmlTransform_stringresponse fuel depth _ htype,
      xmlTransform_stringresponse fuel depth _ htype2]
    simp only [xmlhandlers.stringresponse]
    have hans : getV (XVal.obj (o1 ++ ("additional_answer", v) :: o2)) "answer" =
        getV (XVal.obj (o1 ++ o2)) "answer" := by
      simp only [getV]
      exact getF_middle o1 o2 "answer" ("additional_answer", v) (by simp)
    have hcont : xmlhandlers.stringresponseContent
        (fun n d => xmlTransform fuel n d)
        (XVal.obj (o1 ++ ("additional_answer", v) :: o2)) depth =
        xmlhandlers.stringresponseContent (fun n d => xmlTransform fuel n d)
          (XVal.obj (o1 ++ o2)) depth := by
      simp only [xmlhandlers.stringresponseContent, jsFields]
      exact concatAll_map_middle _ o1 o2 ("additional_answer", v) (by simp)
    rw [hans, hcont]
  · intro fuel depth o htype
    simp only [xmlTransform, truthyV]
    simp [getV, htype, xmlhandlers.additional_answer]

/-- C7 witness: attaching an alternate answer to the concrete
`stringresponse` changes nothing — the rendering keeps only the main
answer. -/
theorem C7_witness : xmlTransform 3 srEnterPlus 0 = "Enter value\n\n[[42]]\n" := by
  have h := C7_stringresponse_main_answer
  have h3 := h.2.2.1 2 0
    [("type", XVal.str "stringresponse"),
     ("p", XVal.obj [("#text", XVal.str "Enter value")]),
     ("answer", XVal.num 42)] []
    (XVal.obj [("answer", XVal.str "43")]) rfl
  exact h3.trans h.1

/-- C8: as stated the claim is false — the `about` handler has no base-name
fallback: an `about` node with an absent display name renders the heading
`# undefined` (the interpolated missing value), not the file's base name. -/
theorem C8_counterexample :
    treeToMarkdown envT 1 aboutNoName 0 = "# undefined\n\n" ∧
    treeToMarkdown envT 1 aboutNoName 0 ≠ "# overview.xml\n\n" := by
  exact ⟨by decide, by decide⟩

/-- C8 (amended): every heading-bearing node emits `min(depth+1, 6)` hash
characters — never seven — and renders its children (for `sequential`, its
`verticals`, `problems` and `children`) at `depth + 1`; `course`, `chapter`
and `sequential` fall back to the file's base name when the display name is
falsy, while `about` interpolates the display name as-is with no fallback. -/
theorem C8_heading_clamp_and_fallback (env : Env) (fuel : Nat) (n : MNode)
    (d : Nat) :
    ((n.ty = "course" ∨ n.ty = "chapter") →
      treeToMarkdown env fuel n d =
        hashRun (min (d + 1) 6) ++ " " ++
          displayOrBase n.display_name n.file ++ "\n\n" ++
          treeToMarkdownList env fuel n.children (d + 1)) ∧
    (n.ty = "sequential" →
      treeToMarkdown env fuel n d =
        hashRun (min (d + 1) 6) ++ " " ++
          displayOrBase n.display_name n.file ++ "\n\n" ++
          treeToMarkdownList env fuel n.verticals (d + 1) ++
          treeToMarkdownList env fuel n.problems (d + 1) ++
          treeToMarkdownList env fuel n.children (d + 1)) ∧
    (n.ty = "about" →
      treeToMarkdown env fuel n d =
        hashRun (min (d + 1) 6) ++ " " ++ jsShowOpt n.display_name ++ "\n\n" ++
          treeToMarkdownList env fuel n.children (d + 1)) ∧
    min (d + 1) 6 ≤ 6 := by
  cases n with
  | mk ty dn file ch verts probs vd pd un =>
    refine ⟨fun h => ?_, fun h => ?_, fun h => ?_, Nat.min_le_right _ _⟩
    · simp only [MNode.ty] at h
      rcases h with h | h <;> subst h <;> rfl
    · simp only [MNode.ty] at h
      subst h
      rfl
    · simp only [MNode.ty] at h
      subst h
      rfl

/-- C8 witness: a chapter without a display name at depth 9 clamps to six
hashes and uses the file's base name. -/
theorem C8_witness :
    treeToMarkdown envT 1
      (MNode.mk "chapter" none (some "chapter/c1.xml") [] [] [] none none none)
      9 = "###### c1.xml\n\n" := by
  have h := (C8_heading_clamp_and_fallback envT 1
    (MNode.mk "chapter" none (some "chapter/c1.xml") [] [] [] none none none)
    9).1 (Or.inr rfl)
  exact h.trans (by decide)

/-- C9: the file-not-found branch of `readFileContent` is unreachable from
the course-tree renderer — when the file exists the guarded body runs, and
the `problem` and `htmlContent` handlers call `readFileContent` only behind
their own existence check, so a `problem` node whose source file is missing
renders exactly its children followed by the `\n\n---\n\n` separator, and a
missing `htmlContent` file renders nothing — never a not-found banner. -/
theorem C9_not_found_unreachable :
    (∀ (env : Env) (fuel : Nat) (p t : String),
      env.existsb p = true →
      readFileContent env fuel p t = readFileContentExisting env fuel p t) ∧
    (∀ (env : Env) (fuel : Nat) (dn file' : Option String)
        (ch verts probs : List MNode) (vd pd un : Option XVal) (d : Nat),
      (∀ f, file' = some f → f ≠ "" → env.existsb f = false) →
      treeToMarkdown env fuel
          (.mk "problem" dn file' ch verts probs vd pd un) d =
        treeToMarkdownList env fuel ch d ++ "\n\n---\n\n") ∧
    (∀ (env : Env) (fuel : Nat) (dn file' : Option String)
        (ch verts probs : List MNode) (vd pd un : Option XVal) (d : Nat),
      (∀ f, file' = some f → f ≠ "" → env.existsb f = false) →
      treeToMarkdown env fuel
          (.mk "htmlContent" dn file' ch verts probs vd pd un) d = "") := by
  refine ⟨?_, ?_, ?_⟩
  · intro env fuel p t h
    simp [readFileContent, h]
  · intro env fuel dn file' ch verts probs vd pd un d h
    cases file' with
    | none => simp [treeToMarkdown]
    | some f =>
      by_cases hf : f = ""
      · subst hf
        simp [treeToMarkdown]
      · have hm := h f rfl hf
        simp [treeToMarkdown, hf, hm]
  · intro env fuel dn file' ch verts probs vd pd un d h
    cases file' with
    | none => simp [treeToMarkdown]
    | some f =>
      by_cases hf : f = ""
      · subst hf
        simp [treeToMarkdown]
      · have hm := h f rfl hf
        simp [treeToMarkdown, hf, hm]

/-- C9 witness: a problem node pointing at a missing file renders only the
separator. -/
theorem C9_witness :
    treeToMarkdown envT 1
      (MNode.mk "problem" none (some "problem/gone.xml") [] [] [] none none none)
      0 = "\n\n---\n\n" := by
  have h := C9_not_found_unreachable.2.1 envT 1 none (some "problem/gone.xml")
    [] [] [] none none none 0 (fun f hf _ => by cases hf; rfl)
  exact h.trans (by decide)

/-- Dispatch: a node typed `numericalresponse` runs the `numericalresponse`
handler. -/
theorem xmlTransform_numericalresponse (fuel depth : Nat)
    (o : List (String × XVal))
    (htype : getF o "type" = some (.str "numericalresponse")) :
    xmlTransform (fuel + 1) (.obj o) depth =
      xmlhandlers.numericalresponse (fun n d => xmlTransform fuel n d)
        (.obj o) depth := by
  simp only [xmlTransform, truthyV]
  simp [getV, htype]

/-- C10: a `stringresponse` or `numericalresponse` whose `answer` attribute
is absent renders (totally — the embedded functions cannot fail) with the
answer defaulted to the empty string, so the output ends in the literal
empty placeholder line `[[]]`. -/
theorem C10_absent_answer (fuel depth : Nat) (o : List (String × XVal))
    (hans : getF o "answer" = none) :
    (getF o "type" = some (.str "stringresponse") →
      xmlTransform (fuel + 1) (.obj o) depth =
        jsTrim (xmlhandlers.stringresponseContent
          (fun n d => xmlTransform fuel n d) (.obj o) depth) ++ "\n\n[[]]\n") ∧
    (getF o "type" = some (.str "numericalresponse") →
      xmlTransform (fuel + 1) (.obj o) depth =
        jsTrim (xmlhandlers.numericalresponseContent
          (fun n d => xmlTransform fuel n d) (.obj o) depth) ++ "\n\n[[]]\n") := by
  constructor
  · intro htype
    rw [xmlTransform_stringresponse fuel depth o htype]
    simp [xmlhandlers.stringresponse, getV, hans, jsOrEmptyStr,
      String.append_assoc]
  · intro htype
    rw [xmlTransform_numericalresponse fuel depth o htype]
    simp [xmlhandlers.numericalresponse, getV, hans, jsOrEmptyStr,
      String.append_assoc]

/-- C10 witness: a bare `stringresponse` with no `answer` renders the empty
placeholder. -/
theorem C10_witness :
    xmlTransform 1 (.obj [("type", XVal.str "stringresponse")]) 0 =
      "\n\n[[]]\n" := by
  have h := (C10_absent_answer 0 0 [("type", XVal.str "stringresponse")]
    rfl).1 rfl
  exact h.trans (by decide)
